import Mathlib

/-!
Shallow embedding of `src/erddap/assemble_erddap_datasets_xml.py`, the ERDDAP
dataset-descriptor assembler: the type-mapping table, the attribute renderer
`get_attr_name_type_val_for_erddap`, the per-variable record builder
`assemble_erddap_variables_dict`, the dataVariable-block renderer
`dump_variables_as_erddap_string` (with its mutation of the input mapping made
explicit by state passing), the dimension-group tagger `get_cdm_variables` /
`create_cdm_variables_dict`, the subset-variables tag, and the final assembly
step of `main`.

Python dictionaries are modelled as association lists in insertion order
(Python 3.7+ dicts iterate in insertion order); raising an exception is
modelled by returning `none`.
-/

/-- A plain Python value as it appears inside a `list`-shaped attribute or as a
generic scalar attribute: `typeName` is the text of `str(type(v))` (for a
Python string this is `<class 'str'>`); `text` is the text of `str(v)`. -/
structure PyVal where
  typeName : String
  text : String
deriving Repr, DecidableEq

/-- An attribute value of one of the shapes `get_attr_name_type_val_for_erddap`
dispatches on, in the order of its `isinstance` tests: a numpy scalar
(`np.generic`, carrying `str(attr.dtype)` and `str(attr)`), a numpy array
(`np.ndarray`, carrying `str(attr.dtype)` and the `str(v)` of each element in
order), a Python list, or any other Python object (carrying `str(type(attr))`
and `str(attr)`). -/
inductive Attr where
  | npGeneric (dtype : String) (text : String)
  | npArray (dtype : String) (elems : List String)
  | pyList (elems : List PyVal)
  | pyScalar (typeName : String) (text : String)
deriving Repr, DecidableEq

/-- The record returned by `get_attr_name_type_val_for_erddap`:
a dict of name, type and value, all strings. -/
structure AttrOut where
  name : String
  type : String
  value : String
deriving Repr, DecidableEq

/-- The global `ERDDAP_NPY_TYPE_MAP` dict, in source order. -/
def ERDDAP_NPY_TYPE_MAP : List (String × String) :=
  [ ("byte", "byte"),
    ("int8", "byte"),
    ("int16", "short"),
    ("uint16", "char"),
    ("int32", "int"),
    ("int64", "long"),
    ("float", "float"),
    ("float32", "float"),
    ("float64", "double"),
    ("|S1", "String"),
    ("string", "String"),
    ("str", "String") ]

/-- Python `d.get(k, dflt)` on a string-valued dict modelled as an
association list. -/
def dictGet (m : List (String × String)) (k dflt : String) : String :=
  match m.find? (fun p => p.1 == k) with
  | some p => p.2
  | none => dflt

/-- Python `d.get(k)` returning `None` when absent, for a dict with values of
any one type. -/
def pyDictGet? {α : Type} (m : List (String × α)) (k : String) : Option α :=
  (m.find? (fun p => p.1 == k)).map Prod.snd

/-- `ERDDAP_ATT_TAG.format(name, type, value)`: the template
`    <att name="..." type="...">...</att>` with the three fields filled in. -/
def format_att_tag (o : AttrOut) : String :=
  "    <att name=\"" ++ o.name ++ "\" type=\"" ++ o.type ++ "\">" ++ o.value ++ "</att>"

/-- `get_attr_name_type_val_for_erddap(name, attr)`.  The four branches follow
the source: numpy scalar and numpy array look the dtype up in
`ERDDAP_NPY_TYPE_MAP` with default `"float"`; a list takes `str(type(attr[0]))`
with default `"String"` (so `attr[0]` on an empty list is an `IndexError`,
modelled as `none`); anything else takes `str(type(attr))` with default
`"String"`.  Values are `str(attr)` or the elements space-joined. -/
def get_attr_name_type_val_for_erddap (name : String) (attr : Attr) : Option AttrOut :=
  match attr with
  | .npGeneric dtype text =>
      some ⟨name, dictGet ERDDAP_NPY_TYPE_MAP dtype "float", text⟩
  | .npArray dtype elems =>
      some ⟨name, dictGet ERDDAP_NPY_TYPE_MAP dtype "float", String.intercalate " " elems⟩
  | .pyList [] => none
  | .pyList (e :: es) =>
      some ⟨name, dictGet ERDDAP_NPY_TYPE_MAP e.typeName "String",
            String.intercalate " " ((e :: es).map PyVal.text)⟩
  | .pyScalar typeName text =>
      some ⟨name, dictGet ERDDAP_NPY_TYPE_MAP typeName "String", text⟩

/-- `create_att_tags(atts)`: one `<att>` line per attribute, in dict order,
newline-joined; `none` when rendering some attribute raises. -/
def create_att_tags (atts : List (String × Attr)) : Option String :=
  (atts.mapM (fun p => (get_attr_name_type_val_for_erddap p.1 p.2).map format_att_tag)).map
    (String.intercalate "\n")

/-- One variable of an open `nc4.Dataset`: its name (the key in
`data.variables`), `str(var.dtype)`, its dimension names in order, and its
attribute dict (`load_var_attr_dict`), in attribute order. -/
structure NcVariable where
  name : String
  dtype : String
  dimensions : List String
  attributes : List (String × Attr)
deriving Repr, DecidableEq

/-- The `user_config_variable_attrs` dict: variable name to a dict of string
fields (such as `destinationName`). -/
abbrev UserConfig := List (String × List (String × String))

/-- One value of the dict built by `assemble_erddap_variables_dict`.  The
`attributes` field is an `Option` so that `pop("attributes")` can be modelled:
`some` means the key is present, `none` means it has been popped. -/
structure VarRecord where
  dataType : String
  sourceName : String
  destinationName : String
  attributes : Option (List (String × Attr))
deriving Repr, DecidableEq

/-- `assemble_erddap_variables_dict(data, user_config_variable_attrs)`:
for each variable, the ERDDAP data type (dtype looked up with default
`"float64"`), sourceName, destinationName (the override field when present,
else the variable name) and the attribute dict. -/
def assemble_erddap_variables_dict (vars : List NcVariable) (cfg : UserConfig) :
    List (String × VarRecord) :=
  vars.map fun v =>
    let vatts := (pyDictGet? cfg v.name).getD []
    (v.name,
      { dataType := dictGet ERDDAP_NPY_TYPE_MAP v.dtype "float64",
        sourceName := v.name,
        destinationName := (pyDictGet? vatts "destinationName").getD v.name,
        attributes := some v.attributes })

/-- `ERDDAP_DATAVARIABLE_STR.format(...)`: the multi-line template beginning
with a newline, with sourceName, destinationName, dataType and the rendered
attribute block filled in. -/
def format_datavariable (sourceName destinationName dataType attributes : String) : String :=
  "\n<dataVariable>\n  <sourceName>" ++ sourceName ++ "</sourceName>\n  <destinationName>"
    ++ destinationName ++ "</destinationName>\n  <dataType>" ++ dataType
    ++ "</dataType>\n  <addAttributes>\n" ++ attributes
    ++ "\n  </addAttributes>\n</dataVariable>"

/-- The loop body of `dump_variables_as_erddap_string`: for each record in
order, pop its `attributes` key (a `KeyError`, modelled as `none`, when the key
is already gone), render the attribute block and the dataVariable block, and
return both the rendered blocks and the mutated dict. -/
def dumpVars : List (String × VarRecord) →
    Option (List String × List (String × VarRecord))
  | [] => some ([], [])
  | (k, r) :: rest =>
    r.attributes.bind fun atts =>
      (create_att_tags atts).bind fun tagBlock =>
        (dumpVars rest).map fun p =>
          (format_datavariable r.sourceName r.destinationName r.dataType tagBlock :: p.1,
           (k, ⟨r.dataType, r.sourceName, r.destinationName, none⟩) :: p.2)

/-- `dump_variables_as_erddap_string(vardict)`: the dataVariable blocks of all
records newline-joined.  The Python function mutates `vardict` in place (each
record's `attributes` key is popped); the mutation is made explicit by
returning the final state of the dict alongside the string. -/
def dump_variables_as_erddap_string (vardict : List (String × VarRecord)) :
    Option (String × List (String × VarRecord)) :=
  (dumpVars vardict).map (fun p => (String.intercalate "\n" p.1, p.2))

/-- The expression `vars_attrs_dict.get(v.name, dict()).get("destinationName", v.name)`
from `get_cdm_variables`: the destinationName a variable resolves to. -/
def resolved_dest_name (cfg : UserConfig) (vname : String) : String :=
  ((pyDictGet? ((pyDictGet? cfg vname).getD []) "destinationName")).getD vname

/-- The `out_vars` list built by `get_cdm_variables`: scanning the variables in
order, a variable is appended (once, the inner loop breaks at the first
matching dimension) exactly when some dimension of it occurs in `dim_names`. -/
def get_cdm_vars_list (vars : List NcVariable) (dim_names : List String)
    (cfg : UserConfig) : List String :=
  vars.filterMap fun v =>
    if v.dimensions.any (fun d => dim_names.contains d)
    then some (resolved_dest_name cfg v.name)
    else none

/-- `get_cdm_variables(ds, dim_names, vars_attrs_dict)`: the matched
destination names comma-joined. -/
def get_cdm_variables (vars : List NcVariable) (dim_names : List String)
    (cfg : UserConfig) : String :=
  String.intercalate "," (get_cdm_vars_list vars dim_names cfg)

/-- `create_cdm_variables_tag(cdm_data_type, var_str)`. -/
def create_cdm_variables_tag (cdm_data_type var_str : String) : String :=
  "<att name=\"cdm_" ++ cdm_data_type ++ "_variables\">" ++ var_str ++ "</att>"

/-- `create_cdm_variables_dict(cdm_data_variable_types, nc, user_config_var_attrs)`:
one entry per dimension group, mapping the group name to its comma-joined
variable string. -/
def create_cdm_variables_dict (cdm_data_variable_types : List (String × List String))
    (vars : List NcVariable) (cfg : UserConfig) : List (String × String) :=
  cdm_data_variable_types.map fun p => (p.1, get_cdm_variables vars p.2 cfg)

/-- `create_cdm_variables_tags(cdm_data_variable_type_vars)`: one tag per
group, newline-joined. -/
def create_cdm_variables_tags (cdm_data_variable_type_vars : List (String × String)) : String :=
  String.intercalate "\n"
    (cdm_data_variable_type_vars.map fun p => create_cdm_variables_tag p.1 p.2)

/-- `create_subset_variables_tag(dim_var_dict)`: the body is
`"".join(*dim_var_dict.values())`.  Unpacking the values into `str.join`
means: with exactly one value `s` the call is `"".join(s)`, which re-joins the
characters of `s` and returns `s` itself; with zero or two or more values the
call is a `TypeError` (`str.join` takes exactly one argument), modelled as
`none`. -/
def create_subset_variables_tag (dim_var_dict : List (String × String)) : Option String :=
  match dim_var_dict.map Prod.snd with
  | [s] => some ("<att name=\"subsetVariables\">" ++ s ++ "</att>")
  | _ => none

/-- The `subsetVariables` entry of `fields_dict` in `main`:
`create_subset_variables_tag(cdm_types_vars_dict) if use_cdm_vars_as_subset else ""`. -/
def subset_variables_field (use_cdm_vars_as_subset : Bool)
    (cdm_types_vars_dict : List (String × String)) : Option String :=
  if use_cdm_vars_as_subset then create_subset_variables_tag cdm_types_vars_dict
  else some ""

/-- Whether the character list `s` starts with the character list `p`. -/
def startsWithList : List Char → List Char → Bool
  | [], _ => true
  | _ :: _, [] => false
  | p :: ps, c :: cs => p == c && startsWithList ps cs

/-- The piece of `s` before the first occurrence of the (non-empty) separator
`sep`: the first element of Python `s.split(sep)`. -/
def firstSplitPiece (sep : List Char) : List Char → List Char
  | [] => []
  | c :: cs => if startsWithList sep (c :: cs) then [] else c :: firstSplitPiece sep cs

/-- `_fname.split(".nc")[0]` from `main`: the dataset id derived from the
file name — everything before the first occurrence of `.nc` (Python `split`
with a non-empty separator; element 0 is the part before the first match). -/
def dataset_id_of (fname : String) : String :=
  String.mk (firstSplitPiece ".nc".toList fname.toList)

/-- `fragment.format(**fields_dict)` for the concrete fragment template
`<dataset>` then the dataset id placeholder, a colon, the dataVariables
placeholder and `</dataset>`. -/
def fill_fragment_dataset_vars (dataset_id dataVariables : String) : String :=
  "<dataset>" ++ dataset_id ++ ":" ++ dataVariables ++ "</dataset>"

/-- The final assembly in `main`: with header/footer enabled the output is
the header, a newline, the newline-joined fragments and a final
newline-`</erddapDatasets>`; otherwise just the newline-joined fragments. -/
def main_output (add_header_footer : Bool) (header : String)
    (datasets : List String) : String :=
  if add_header_footer then
    header ++ "\n" ++ String.intercalate "\n" datasets ++ "\n</erddapDatasets>"
  else
    String.intercalate "\n" datasets

lemma any_contains_iff (dims dim_names : List String) :
    (dims.any fun d => dim_names.contains d) = true ↔ ∃ d ∈ dims, d ∈ dim_names := by
  simp [List.any_eq_true, List.contains_iff_exists_mem_beq]

/-- C7: rendering a numeric array attribute yields the type map applied to the
array's dtype (default `float`) and the elements space-joined in order; in
particular `[1,2,3]` with dtype `int32` renders as type `int`, value `1 2 3`. -/
theorem C7_numeric_array_rendering (name dtype : String) (elems : List String) :
    get_attr_name_type_val_for_erddap name (Attr.npArray dtype elems) =
      some ⟨name, dictGet ERDDAP_NPY_TYPE_MAP dtype "float", String.intercalate " " elems⟩ ∧
    get_attr_name_type_val_for_erddap "a" (Attr.npArray "int32" ["1", "2", "3"]) =
      some ⟨"a", "int", "1 2 3"⟩ :=
  ⟨rfl, rfl⟩

/-- C8: a generic list attribute whose first element is a Python string
(runtime type text `<class 'str'>`, which is not a key of the type map, so the
default `String` applies) renders with type `String` whatever the remaining
elements are, and value all elements' texts space-joined. -/
theorem C8_generic_list_first_element_string (name text : String) (es : List PyVal) :
    get_attr_name_type_val_for_erddap name
        (Attr.pyList (⟨"<class \x27str\x27>", text⟩ :: es)) =
      some ⟨name, "String", String.intercalate " " (text :: es.map PyVal.text)⟩ :=
  rfl

/-- C9: with zero datasets, header/footer enabled yields the header followed by
two newlines and the closing tag; disabled yields the empty string. -/
theorem C9_empty_run_wrapping (header : String) :
    main_output true header [] = header ++ "\n\n</erddapDatasets>" ∧
    main_output false header [] = "" := by
  refine ⟨?_, rfl⟩
  show header ++ "\n" ++ String.intercalate "\n" [] ++ "\n</erddapDatasets>" = _
  rw [show String.intercalate "\n" [] = "" from rfl, String.append_empty,
    String.append_assoc]
  rfl

/-- C1: one orchestrator pass over a directory with a single file `X.nc`
holding a single float64 variable `T` with attributes `units: degC`, no
overrides, no dimension groups, header/footer disabled, fragment template
`<dataset>` dataset id `:` dataVariables `</dataset>`, writes exactly the text
claimed by the spec. -/
theorem C1_end_to_end :
    (dump_variables_as_erddap_string
        (assemble_erddap_variables_dict
          [⟨"T", "float64", [], [("units", Attr.pyScalar "<class \x27str\x27>" "degC")]⟩]
          [])).map
      (fun p => main_output false ""
        [fill_fragment_dataset_vars (dataset_id_of "X.nc") p.1]) =
    some ("<dataset>X:\n<dataVariable>\n  <sourceName>T</sourceName>\n  <destinationName>T</destinationName>\n  <dataType>double</dataType>\n  <addAttributes>\n    <att name=\"units\" type=\"String\">degC</att>\n  </addAttributes>\n</dataVariable></dataset>") := by
  rfl

/-- C2 counterexample: with two dimension groups the subset-variables tag is
not produced at all — `"".join(*values)` with two arguments is a `TypeError`
(modelled as `none`), not the first group's string. -/
theorem C2_counterexample :
    create_subset_variables_tag [("profile", "a"), ("sample", "b")] = none :=
  rfl

/-- C2 amended: with exactly one dimension group the tag's value is that
group's matched-names string; with zero or with two or more groups the call
fails with a `TypeError`; with the mode disabled the tag is omitted (the empty
string is substituted). -/
theorem C2_subset_variables (g s : String) (d : List (String × String)) :
    create_subset_variables_tag [(g, s)] =
      some ("<att name=\"subsetVariables\">" ++ s ++ "</att>") ∧
    (d.length ≠ 1 → create_subset_variables_tag d = none) ∧
    subset_variables_field false d = some "" := by
  refine ⟨rfl, ?_, rfl⟩
  intro h
  match d with
  | [] => rfl
  | [p] => exact absurd rfl h
  | p :: q :: rest => rfl

theorem C2_subset_variables_witness :
    (([] : List (String × String)).length ≠ 1) ∧
    (create_subset_variables_tag [("profile", "x")] =
      some ("<att name=\"subsetVariables\">" ++ "x" ++ "</att>") ∧
    ((([] : List (String × String)).length ≠ 1) →
      create_subset_variables_tag ([] : List (String × String)) = none) ∧
    subset_variables_field false ([] : List (String × String)) = some "") :=
  ⟨by decide, C2_subset_variables "profile" "x" []⟩

/-- C3 counterexample: on the empty generic list the attribute renderer does
not return a record — `attr[0]` is an `IndexError` (modelled as `none`). -/
theorem C3_counterexample :
    get_attr_name_type_val_for_erddap "flag_values" (Attr.pyList []) = none :=
  rfl

/-- C3 amended: for every attribute value of the admitted shapes except the
empty generic list, the attribute renderer succeeds and returns a record
carrying the given name; unrecognized type identifiers and mixed-type lists
fall to the documented defaults rather than raising. -/
theorem C3_attribute_renderer_total (name : String) (attr : Attr)
    (h : attr ≠ Attr.pyList []) :
    ∃ o : AttrOut, get_attr_name_type_val_for_erddap name attr = some o ∧
      o.name = name := by
  match attr with
  | .npGeneric dtype text => exact ⟨_, rfl, rfl⟩
  | .npArray dtype elems => exact ⟨_, rfl, rfl⟩
  | .pyList [] => exact absurd rfl h
  | .pyList (e :: es) => exact ⟨_, rfl, rfl⟩
  | .pyScalar typeName text => exact ⟨_, rfl, rfl⟩

theorem C3_attribute_renderer_total_witness :
    (Attr.pyScalar "<class \x27int\x27>" "7" ≠ Attr.pyList []) ∧
    ∃ o : AttrOut,
      get_attr_name_type_val_for_erddap "n" (Attr.pyScalar "<class \x27int\x27>" "7") =
        some o ∧ o.name = "n" :=
  ⟨by decide, C3_attribute_renderer_total "n" _ (by decide)⟩

/-- C4 counterexample: a plain Python `int` attribute (runtime type text
`<class 'int'>`, not a key of the type map) renders with type `String`, not
`float`: the fallback in the generic-scalar branch is `String`. -/
theorem C4_counterexample :
    get_attr_name_type_val_for_erddap "n" (Attr.pyScalar "<class \x27int\x27>" "5") =
      some ⟨"n", "String", "5"⟩ ∧ ("String" : String) ≠ "float" :=
  ⟨rfl, by decide⟩

/-- C4 amended: for a type identifier that is not a key of the type map, the
fallback is `float` in the numpy-scalar and numpy-array branches, `String` in
the generic-list and generic-scalar branches, and `float64` for a variable's
storage type in `assemble_erddap_variables_dict`. -/
theorem C4_type_mapper_fallback (d name text : String) (elems : List String)
    (es : List PyVal) (dims : List String) (atts : List (String × Attr))
    (cfg : UserConfig)
    (h : ERDDAP_NPY_TYPE_MAP.find? (fun p => p.1 == d) = none) :
    get_attr_name_type_val_for_erddap name (Attr.npGeneric d text) =
      some ⟨name, "float", text⟩ ∧
    get_attr_name_type_val_for_erddap name (Attr.npArray d elems) =
      some ⟨name, "float", String.intercalate " " elems⟩ ∧
    get_attr_name_type_val_for_erddap name (Attr.pyList (⟨d, text⟩ :: es)) =
      some ⟨name, "String", String.intercalate " " (text :: es.map PyVal.text)⟩ ∧
    get_attr_name_type_val_for_erddap name (Attr.pyScalar d text) =
      some ⟨name, "String", text⟩ ∧
    (assemble_erddap_variables_dict [⟨name, d, dims, atts⟩] cfg).map
        (fun p => p.2.dataType) = ["float64"] := by
  refine ⟨?_, ?_, ?_, ?_, ?_⟩ <;>
    simp [get_attr_name_type_val_for_erddap, dictGet, h,
      assemble_erddap_variables_dict]

theorem C4_type_mapper_fallback_witness :
    (ERDDAP_NPY_TYPE_MAP.find? (fun p => p.1 == "<class \x27int\x27>") = none) ∧
    (get_attr_name_type_val_for_erddap "n" (Attr.npGeneric "<class \x27int\x27>" "5") =
      some ⟨"n", "float", "5"⟩ ∧
    get_attr_name_type_val_for_erddap "n" (Attr.npArray "<class \x27int\x27>" ["5"]) =
      some ⟨"n", "float", String.intercalate " " ["5"]⟩ ∧
    get_attr_name_type_val_for_erddap "n"
        (Attr.pyList (⟨"<class \x27int\x27>", "5"⟩ :: [])) =
      some ⟨"n", "String", String.intercalate " " ("5" :: ([] : List PyVal).map PyVal.text)⟩ ∧
    get_attr_name_type_val_for_erddap "n" (Attr.pyScalar "<class \x27int\x27>" "5") =
      some ⟨"n", "String", "5"⟩ ∧
    (assemble_erddap_variables_dict [⟨"n", "<class \x27int\x27>", [], []⟩] []).map
        (fun p => p.2.dataType) = ["float64"]) :=
  ⟨by decide, C4_type_mapper_fallback "<class \x27int\x27>" "n" "5" ["5"] [] [] [] []
    (by decide)⟩

/-- C5: every variable yields a record whose sourceName is the variable's
name and whose destinationName is the override field when the user config has
one for this variable, and the variable's name otherwise (no entry, or an
entry without a destinationName field). -/
theorem C5_destination_name_resolution (vars : List NcVariable) (cfg : UserConfig)
    (v : NcVariable) (hv : v ∈ vars) :
    ∃ r : VarRecord, (v.name, r) ∈ assemble_erddap_variables_dict vars cfg ∧
      r.sourceName = v.name ∧
      (pyDictGet? cfg v.name = none → r.destinationName = v.name) ∧
      (∀ vatts, pyDictGet? cfg v.name = some vatts →
        (pyDictGet? vatts "destinationName" = none → r.destinationName = v.name) ∧
        (∀ dn, pyDictGet? vatts "destinationName" = some dn →
          r.destinationName = dn)) := by
  refine ⟨⟨dictGet ERDDAP_NPY_TYPE_MAP v.dtype "float64", v.name,
      (pyDictGet? ((pyDictGet? cfg v.name).getD []) "destinationName").getD v.name,
      some v.attributes⟩,
    List.mem_map.mpr ⟨v, hv, rfl⟩, rfl, ?_, ?_⟩
  · intro h
    show (pyDictGet? ((pyDictGet? cfg v.name).getD []) "destinationName").getD v.name
      = v.name
    rw [h]
    rfl
  · intro vatts h
    refine ⟨?_, ?_⟩
    · intro h2
      show (pyDictGet? ((pyDictGet? cfg v.name).getD []) "destinationName").getD v.name
        = v.name
      rw [h]
      show (pyDictGet? vatts "destinationName").getD v.name = v.name
      rw [h2]
      rfl
    · intro dn h2
      show (pyDictGet? ((pyDictGet? cfg v.name).getD []) "destinationName").getD v.name
        = dn
      rw [h]
      show (pyDictGet? vatts "destinationName").getD v.name = dn
      rw [h2]
      rfl

theorem C5_destination_name_resolution_witness :
    ((⟨"U", "float32", ["t"], []⟩ : NcVariable) ∈
      ([⟨"T", "float64", [], []⟩, ⟨"U", "float32", ["t"], []⟩] : List NcVariable)) ∧
    ∃ r : VarRecord,
      ("U", r) ∈ assemble_erddap_variables_dict
        [⟨"T", "float64", [], []⟩, ⟨"U", "float32", ["t"], []⟩]
        [("U", [("destinationName", "u2")])] ∧
      r.sourceName = "U" ∧
      (pyDictGet? [("U", [("destinationName", "u2")])] "U" = none →
        r.destinationName = "U") ∧
      (∀ vatts, pyDictGet? [("U", [("destinationName", "u2")])] "U" = some vatts →
        (pyDictGet? vatts "destinationName" = none → r.destinationName = "U") ∧
        (∀ dn, pyDictGet? vatts "destinationName" = some dn →
          r.destinationName = dn)) :=
  ⟨by decide, C5_destination_name_resolution
    [⟨"T", "float64", [], []⟩, ⟨"U", "float32", ["t"], []⟩]
    [("U", [("destinationName", "u2")])]
    ⟨"U", "float32", ["t"], []⟩ (by decide)⟩

/-- C6 counterexample: two variables whose overrides resolve to the same
destinationName `x`; only `t1` has a dimension in the group, yet `t2`'s
resolved destinationName `x` appears in the group's result — membership of
the resolved name does not imply a dimension match for that variable. -/
theorem C6_counterexample :
    resolved_dest_name
        [("t1", [("destinationName", "x")]), ("t2", [("destinationName", "x")])]
        "t2" = "x" ∧
    "x" ∈ get_cdm_vars_list
        [⟨"t1", "float64", ["dimA"], []⟩, ⟨"t2", "float64", ["dimB"], []⟩]
        ["dimA"]
        [("t1", [("destinationName", "x")]), ("t2", [("destinationName", "x")])] ∧
    ¬ ∃ d ∈ (["dimB"] : List String), d ∈ (["dimA"] : List String) := by
  refine ⟨rfl, ?_, by decide⟩
  decide

/-- C6 amended: a variable with a dimension in the group always contributes its
resolved destinationName to the group's result; conversely, when the resolved
destination names of the file's variables are pairwise distinct, membership of
a variable's resolved name implies one of its dimensions is in the group's
list; each variable contributes at most one entry (the result has at most one
entry per variable), and a group matched by no variable yields the empty
string, not an error. -/
theorem C6_dimension_group_membership (vars : List NcVariable)
    (dim_names : List String) (cfg : UserConfig) (v : NcVariable)
    (hv : v ∈ vars) :
    ((∃ d ∈ v.dimensions, d ∈ dim_names) →
      resolved_dest_name cfg v.name ∈ get_cdm_vars_list vars dim_names cfg) ∧
    ((vars.map fun w => resolved_dest_name cfg w.name).Nodup →
      resolved_dest_name cfg v.name ∈ get_cdm_vars_list vars dim_names cfg →
      ∃ d ∈ v.dimensions, d ∈ dim_names) ∧
    (get_cdm_vars_list vars dim_names cfg).length ≤ vars.length ∧
    ((∀ w ∈ vars, ¬ ∃ d ∈ w.dimensions, d ∈ dim_names) →
      get_cdm_variables vars dim_names cfg = "") := by
  refine ⟨?_, ?_, ?_, ?_⟩
  · intro hmatch
    refine List.mem_filterMap.mpr ⟨v, hv, ?_⟩
    rw [if_pos ((any_contains_iff v.dimensions dim_names).mpr hmatch)]
  · intro hnd hmem
    obtain ⟨w, hw, hfw⟩ := List.mem_filterMap.mp hmem
    by_cases hc : (w.dimensions.any fun d => dim_names.contains d) = true
    · rw [if_pos hc] at hfw
      have hweq : w = v :=
        List.inj_on_of_nodup_map hnd hw hv (Option.some.inj hfw)
      exact (any_contains_iff v.dimensions dim_names).mp (hweq ▸ hc)
    · rw [if_neg hc] at hfw
      exact absurd hfw (by simp)
  · exact List.length_filterMap_le _ _
  · intro hnone
    unfold get_cdm_variables
    rw [show get_cdm_vars_list vars dim_names cfg = [] from
      List.filterMap_eq_nil_iff.mpr fun w hw => by
        rw [if_neg fun hc =>
          hnone w hw ((any_contains_iff w.dimensions dim_names).mp hc)]]
    rfl

theorem C6_dimension_group_membership_witness :
    ((⟨"temp", "float64", ["dimA"], []⟩ : NcVariable) ∈
      ([⟨"temp", "float64", ["dimA"], []⟩, ⟨"sal", "float64", ["dimB"], []⟩] :
        List NcVariable)) ∧
    (((∃ d ∈ (["dimA"] : List String), d ∈ (["dimA"] : List String)) →
      resolved_dest_name [] "temp" ∈ get_cdm_vars_list
        [⟨"temp", "float64", ["dimA"], []⟩, ⟨"sal", "float64", ["dimB"], []⟩]
        ["dimA"] []) ∧
    ((([⟨"temp", "float64", ["dimA"], []⟩, ⟨"sal", "float64", ["dimB"], []⟩] :
        List NcVariable).map fun w => resolved_dest_name [] w.name).Nodup →
      resolved_dest_name [] "temp" ∈ get_cdm_vars_list
        [⟨"temp", "float64", ["dimA"], []⟩, ⟨"sal", "float64", ["dimB"], []⟩]
        ["dimA"] [] →
      ∃ d ∈ (["dimA"] : List String), d ∈ (["dimA"] : List String)) ∧
    (get_cdm_vars_list
        [⟨"temp", "float64", ["dimA"], []⟩, ⟨"sal", "float64", ["dimB"], []⟩]
        ["dimA"] []).length ≤
      ([⟨"temp", "float64", ["dimA"], []⟩, ⟨"sal", "float64", ["dimB"], []⟩] :
        List NcVariable).length ∧
    ((∀ w ∈ ([⟨"temp", "float64", ["dimA"], []⟩, ⟨"sal", "float64", ["dimB"], []⟩] :
        List NcVariable), ¬ ∃ d ∈ w.dimensions, d ∈ (["dimA"] : List String)) →
      get_cdm_variables
        [⟨"temp", "float64", ["dimA"], []⟩, ⟨"sal", "float64", ["dimB"], []⟩]
        ["dimA"] [] = "")) :=
  ⟨by decide, C6_dimension_group_membership
    [⟨"temp", "float64", ["dimA"], []⟩, ⟨"sal", "float64", ["dimB"], []⟩]
    ["dimA"] [] ⟨"temp", "float64", ["dimA"], []⟩ (by decide)⟩

lemma dumpVars_snd (l : List (String × VarRecord)) :
    ∀ ss rs, dumpVars l = some (ss, rs) →
      rs = l.map fun p =>
        (p.1, (⟨p.2.dataType, p.2.sourceName, p.2.destinationName, none⟩ : VarRecord)) := by
  induction l with
  | nil =>
    intro ss rs h
    simp only [dumpVars, Option.some.injEq, Prod.mk.injEq] at h
    rw [← h.2]
    rfl
  | cons q rest ih =>
    intro ss rs h
    obtain ⟨k, r⟩ := q
    simp only [dumpVars, Option.bind_eq_some, Option.map_eq_some',
      Prod.mk.injEq] at h
    obtain ⟨atts, ha, tb, hc, pr, hd, hss, hrs⟩ := h
    rw [← hrs, List.map_cons]
    rw [ih pr.1 pr.2 hd]

/-- C10 counterexample: for the empty variable dict produced by
`assemble_erddap_variables_dict` on a dataset with no variables, the renderer
succeeds, leaves the mapping unchanged, and a second call also succeeds —
no missing-key error. -/
theorem C10_counterexample :
    dump_variables_as_erddap_string (assemble_erddap_variables_dict [] []) =
      some ("", assemble_erddap_variables_dict [] []) ∧
    assemble_erddap_variables_dict [] [] = [] ∧
    dump_variables_as_erddap_string [] = some ("", []) :=
  ⟨rfl, rfl, rfl⟩

/-- C10 amended: for a dict produced by `assemble_erddap_variables_dict` on at
least one variable, a successful call to `dump_variables_as_erddap_string`
leaves every record without its `attributes` key, so the mapping is mutated
(differs from the input) and a second call fails with a missing-key error. -/
theorem C10_dump_mutates_vardict (vars : List NcVariable) (cfg : UserConfig)
    (s : String) (d2 : List (String × VarRecord)) (hne : vars ≠ [])
    (h : dump_variables_as_erddap_string (assemble_erddap_variables_dict vars cfg) =
      some (s, d2)) :
    (∀ p ∈ d2, p.2.attributes = none) ∧
    d2 ≠ assemble_erddap_variables_dict vars cfg ∧
    dump_variables_as_erddap_string d2 = none := by
  obtain ⟨v, vs, rfl⟩ := List.exists_cons_of_ne_nil hne
  have hdv : ∃ ss, dumpVars (assemble_erddap_variables_dict (v :: vs) cfg) =
      some (ss, d2) := by
    unfold dump_variables_as_erddap_string at h
    obtain ⟨pr, hpr, hmap⟩ := Option.map_eq_some'.mp h
    obtain ⟨ss, rs⟩ := pr
    have h2 : rs = d2 := congrArg Prod.snd hmap
    exact ⟨ss, by rw [hpr, h2]⟩
  obtain ⟨ss, hss⟩ := hdv
  have hmapped := dumpVars_snd _ ss d2 hss
  refine ⟨?_, ?_, ?_⟩
  · intro p hp
    rw [hmapped] at hp
    obtain ⟨q, hq, hpq⟩ := List.mem_map.mp hp
    rw [← hpq]
  · intro heq
    have hA : assemble_erddap_variables_dict (v :: vs) cfg =
        (v.name, (⟨dictGet ERDDAP_NPY_TYPE_MAP v.dtype "float64", v.name,
          (pyDictGet? ((pyDictGet? cfg v.name).getD []) "destinationName").getD v.name,
          some v.attributes⟩ : VarRecord)) ::
          assemble_erddap_variables_dict vs cfg := rfl
    rw [hmapped, hA] at heq
    have hhead := congrArg
      (fun l => ((l.headD ("", (⟨"", "", "", none⟩ : VarRecord))).2).attributes) heq
    simp at hhead
  · rw [hmapped]
    rfl

theorem C10_dump_mutates_vardict_witness :
    (([⟨"T", "float64", [], []⟩] : List NcVariable) ≠ []) ∧
    (dump_variables_as_erddap_string
        (assemble_erddap_variables_dict [⟨"T", "float64", [], []⟩] []) =
      some (format_datavariable "T" "T" "double" "",
        [("T", ⟨"double", "T", "T", none⟩)])) ∧
    ((∀ p ∈ ([("T", (⟨"double", "T", "T", none⟩ : VarRecord))] :
        List (String × VarRecord)), p.2.attributes = none) ∧
    ([("T", (⟨"double", "T", "T", none⟩ : VarRecord))] :
        List (String × VarRecord)) ≠
      assemble_erddap_variables_dict [⟨"T", "float64", [], []⟩] [] ∧
    dump_variables_as_erddap_string [("T", ⟨"double", "T", "T", none⟩)] = none) :=
  ⟨by decide, by rfl,
    C10_dump_mutates_vardict [⟨"T", "float64", [], []⟩] [] _ _ (by decide) (by rfl)⟩
